import Mathlib

/-!
Verification of the 455-355-7357-88 (ASS-ESS-TEST-88) test framework.

This file gives a shallow embedding of the two core components of the
repository — the `Test` lifecycle state machine (`Test.h`) and the
`ScopeBenchmarker` timing-aggregation store (`ScopeBenchmarker.h`) — and
proves properties of the embedded operations.

Modelling conventions:
* C++ `std::vector`/`std::string` become `List`/`String`; `long long` and
  `int` become `Int` (no overflow occurs in any property proved here, and
  the source itself guards the only overflow-relevant counters with
  explicit checks); `float` values become exact rationals `ℚ`.
* Virtual hooks of a derived test class (`setUp`, `testMethod`, the subtest
  callables, and the `addSubTest` calls performed by `initialize`) are
  modelled by a `Fixture` record of their outcomes, since the base-class
  lifecycle observes them only through their return values and the
  registrations they perform.
* Invocations of the lifecycle hooks are recorded in an event trace so that
  "is invoked" / "is never invoked" statements can be expressed.
* C++ `throw` becomes `Except.error`; the global store mutated through
  references becomes explicit state passing.
-/

namespace AssEssTest

/-- One registered subtest: the Boolean outcome its member-function callable
produces when invoked, and its name (`Test::TUNITSUBTESTFUNCNAMEPAIR`,
Test.h:891). -/
structure SubTestEntry where
  func : Bool
  name : String
  deriving DecidableEq

/-- The mutable state of a `Test` object (data members of class `Test`,
Test.h:895-903). -/
structure TestState where
  sTestName : String
  sTestFile : String
  sErrorMessages : List String
  sInfoMessages : List String
  tSubTests : List SubTestEntry
  iCurrentSubTest : Nat
  bWeAreInSubTest : Bool
  nSucceededSubTests : Int
  bTestRan : Bool
  deriving DecidableEq

/-- The state of a default-constructed `Test` before `reset()` runs in the
constructor: strings and vectors are empty; the scalar members are set by
`reset()` immediately afterwards, so their values here are irrelevant and
chosen as the values `reset()` assigns. -/
def initialTestState : TestState :=
  { sTestName := "", sTestFile := "", sErrorMessages := [], sInfoMessages := [],
    tSubTests := [], iCurrentSubTest := 0, bWeAreInSubTest := false,
    nSucceededSubTests := 0, bTestRan := false }

/-- `Test::reset` (Test.h:928-936): clears the run state; the subtest list
and the name/file are untouched. -/
def TestState.reset (t : TestState) : TestState :=
  { t with bTestRan := false, sErrorMessages := [], sInfoMessages := [],
           iCurrentSubTest := 0, bWeAreInSubTest := false,
           nSucceededSubTests := 0 }

/-- `Test::getFilename` (Test.h:920-923): `path.substr(path.find_last_of('\\') + 1)`,
i.e. the suffix of `path` after the last backslash (the whole string when
there is none, since `npos + 1 == 0`). -/
def getFilename (path : String) : String :=
  ((path.toList.reverse.takeWhile (fun c => c ≠ '\\')).reverse).asString

/-- The `Test` constructor (Test.h:139-149). -/
def mkTest (testFile testName : String) : TestState :=
  let t := initialTestState.reset
  let t :=
    if testName.isEmpty && testFile.isEmpty then
      { t with sTestName := "Unnamed Test" }
    else
      { t with sTestName := testName }
  if testFile.isEmpty then t else { t with sTestFile := getFilename testFile }

/-- `Test::isPassed` (Test.h:702-705): `bTestRan && sErrorMessages.empty()`. -/
def TestState.isPassed (t : TestState) : Bool :=
  t.bTestRan && t.sErrorMessages.isEmpty

/-- `Test::addToErrorMessages` (Test.h:208-211). -/
def TestState.addToErrorMessages (t : TestState) (msg : String) : TestState :=
  { t with sErrorMessages := t.sErrorMessages ++ [msg] }

/-- `Test::addToInfoMessages` (Test.h:190-193). -/
def TestState.addToInfoMessages (t : TestState) (msg : String) : TestState :=
  { t with sInfoMessages := t.sInfoMessages ++ [msg] }

/-- `Test::addSubTest` (Test.h:863-872): a null callable (`none`) is
silently ignored; otherwise the (callable, name) pair is appended. -/
def TestState.addSubTest (t : TestState) (subTestName : String)
    (subTestFunc : Option Bool) : TestState :=
  match subTestFunc with
  | none => t
  | some f => { t with tSubTests := t.tSubTests ++ [⟨f, subTestName⟩] }

/-- `Test::getSubTestCount` (Test.h:781-784). -/
def TestState.getSubTestCount (t : TestState) : Int :=
  (t.tSubTests.length : Int)

/-- `Test::getPassedSubTestCount` (Test.h:790-793). -/
def TestState.getPassedSubTestCount (t : TestState) : Int :=
  t.nSucceededSubTests

/-- `Test::getCurrentSubTestName` (Test.h:803-807). The C++ body is
`assert(iCurrentSubTest < tSubTests.size()); tSubTests[iCurrentSubTest].second;`:
the indexing expression is evaluated and discarded, and control falls off
the end of the value-returning function without a `return` statement, so no
value is produced on any input; embedded as the constantly-`none` fallible
function (`none` also covers the assertion failure on an out-of-range
index). -/
def TestState.getCurrentSubTestName (_t : TestState) : Option String :=
  none

/-- What `Test::getCurrentSubTestName` is documented to return
(`@return Name of currently running subtest.`, Test.h:800): the name stored
at the current-subtest index. Stated from the spec for comparison with the
source embedding above. -/
def TestState.getCurrentSubTestNameSpec (t : TestState) : Option String :=
  (t.tSubTests.get? t.iCurrentSubTest).map SubTestEntry.name

/-- `Test::isSubTestRunning` (Test.h:815-818). -/
def TestState.isSubTestRunning (t : TestState) : Bool :=
  t.bWeAreInSubTest

/-- Outcomes of a derived test class's virtual hooks, as observed by
`Test::run`: the `addSubTest(name, callable)` calls that `initialize()`
performs (a `none` callable models a null function pointer), the result of
`setUp()` for the main phase, the result of `testMethod()`, and the result
of `setUp()` when invoked for subtest `i`.  `tearDown`, `finalize`,
`preSetUp` and `postTearDown` return nothing and are default no-ops; their
invocations are recorded in the event trace. -/
structure Fixture where
  initAdds : List (String × Option Bool)
  setUpMain : Bool
  testMethodResult : Bool
  setUpSub : Nat → Bool

/-- A lifecycle-hook invocation performed by `Test::run`, tagged with its
call site (main phase vs. subtest loop iteration `i`). -/
inductive Ev where
  | initHook
  | preSetUpMain
  | setUpMain
  | testMethod
  | tearDownMain
  | postTearDownMain
  | preSetUpSub (i : Nat)
  | setUpSub (i : Nat)
  | subCall (i : Nat)
  | tearDownSub (i : Nat)
  | postTearDownSub (i : Nat)
  | finalizeHook
  deriving DecidableEq

/-- The `addSubTest` calls performed by `initialize()` (Fixture.initAdds),
applied in order, as `Test::run` line 727 triggers them. -/
def runInitAdds (l : List (String × Option Bool)) (t : TestState) : TestState :=
  l.foldl (fun s p => s.addSubTest p.1 p.2) t

/-- The entries that a sequence of `addSubTest` calls appends (null
callables dropped, order preserved). -/
def initEntries (l : List (String × Option Bool)) : List SubTestEntry :=
  l.filterMap (fun p => p.2.map (fun f => ⟨f, p.1⟩))

/-- The subtest loop of `Test::run` (Test.h:750-768), iterating the
snapshot `entries` of `tSubTests` with `i0` the index of the first entry:
per iteration set `iCurrentSubTest`, invoke `preSetUp`/`setUp`; on `setUp`
success invoke the callable and either bump `nSucceededSubTests` or append
the `failed!` message; on `setUp` failure append the `SKIPPED` message;
always invoke `tearDown`/`postTearDown`. -/
def subLoop (fx : Fixture) (entries : List SubTestEntry) (i0 : Nat)
    (t : TestState) : TestState × List Ev :=
  match entries with
  | [] => (t, [])
  | e :: rest =>
    let t1 := { t with iCurrentSubTest := i0 }
    let (t2, evs1) :=
      if fx.setUpSub i0 then
        if e.func then
          ({ t1 with nSucceededSubTests := t1.nSucceededSubTests + 1 },
            [Ev.preSetUpSub i0, Ev.setUpSub i0, Ev.subCall i0])
        else
          (t1.addToErrorMessages ("  <" ++ e.name ++ "> failed!"),
            [Ev.preSetUpSub i0, Ev.setUpSub i0, Ev.subCall i0])
      else
        (t1.addToErrorMessages ("  <" ++ e.name ++ "> SKIPPED due to setUp() failed!"),
          [Ev.preSetUpSub i0, Ev.setUpSub i0])
    let (t3, evs3) := subLoop fx rest (i0 + 1) t2
    (t3, evs1 ++ [Ev.tearDownSub i0, Ev.postTearDownSub i0] ++ evs3)

/-- Body of `Test::run` (Test.h:723-775) after the initial `reset()`:
mark `bTestRan`, run `initialize()` (its `addSubTest` calls), the main
`preSetUp`/`setUp`/`testMethod`/`tearDown`/`postTearDown` phase, the
subtest loop (skipped entirely when the main `setUp()` failed), then
`finalize()`; returns `isPassed()` together with the final state and the
hook-invocation trace. -/
def runBody (fx : Fixture) (t0 : TestState) : Bool × TestState × List Ev :=
  let t1 := { t0 with bTestRan := true }
  let t2 := runInitAdds fx.initAdds t1
  let (bSkipAllSubTests, t3, evsMain) :=
    if fx.setUpMain then
      if fx.testMethodResult then
        (false, t2, [Ev.preSetUpMain, Ev.setUpMain, Ev.testMethod])
      else
        (false, t2.addToErrorMessages ("  <" ++ t2.sTestFile ++ "> failed!"),
          [Ev.preSetUpMain, Ev.setUpMain, Ev.testMethod])
    else
      (true, t2.addToErrorMessages ("  <" ++ t2.sTestFile ++ "> setUp() failed!"),
        [Ev.preSetUpMain, Ev.setUpMain])
  let (t4, evsSub) :=
    if bSkipAllSubTests then (t3, ([] : List Ev))
    else
      let ta := { t3 with bWeAreInSubTest := true }
      let (tb, evs) := subLoop fx ta.tSubTests 0 ta
      ({ tb with bWeAreInSubTest := false }, evs)
  (t4.isPassed, t4,
    [Ev.initHook] ++ evsMain ++ [Ev.tearDownMain, Ev.postTearDownMain]
      ++ evsSub ++ [Ev.finalizeHook])

/-- `Test::run` (Test.h:723-775): `reset()` first, then the lifecycle. -/
def run (fx : Fixture) (t : TestState) : Bool × TestState × List Ev :=
  runBody fx t.reset

/-! ### Float assertions (Test.h)

C++ `float` arguments are modelled as exact rationals; `std::abs` becomes
`abs` on `ℚ`.  The generic stream-based `Test::toString` (Test.h:907-913)
renders a value's digits; its exact text is irrelevant to the properties
proved here, so rationals are rendered through their canonical `num/den`
string form. -/

/-- Rendering of a checked value in a diagnostic message, standing in for
the stream-based `Test::toString` (Test.h:907-913). -/
def ratToString (q : ℚ) : String :=
  if q.den = 1 then toString q.num else toString q.num ++ "/" ++ toString q.den

/-- `Test::assertTrue` (Test.h:222-236): on a false statement append
`Assertion failed!` (no user message) or `Assertion failed: <msg>`; return
the statement. -/
def TestState.assertTrue (t : TestState) (statement : Bool)
    (msg : Option String) : Bool × TestState :=
  if statement then
    (statement, t)
  else
    match msg with
    | none => (statement, t.addToErrorMessages ("Assertion failed!"))
    | some m => (statement, t.addToErrorMessages ("Assertion failed: " ++ m))

/-- The float specialization `Test::assertBetween(float, float, float, float,
const char*)` (Test.h:416-428): the checked value is accepted when it is
strictly inside each bound or within `epsilon` of that bound, and the
verdict is handed to `assertTrue` together with the `out of range:` text. -/
def TestState.assertBetweenEps (t : TestState)
    (minVal maxVal checked epsilon : ℚ) (msg : Option String) :
    Bool × TestState :=
  let b := (decide (minVal < checked) || decide (|minVal - checked| ≤ epsilon)) &&
           (decide (maxVal > checked) || decide (|maxVal - checked| ≤ epsilon))
  match msg with
  | none =>
    t.assertTrue b (some ("out of range: " ++ ratToString minVal ++ " <= " ++
      ratToString checked ++ " <= " ++ ratToString maxVal ++ " !"))
  | some m =>
    t.assertTrue b (some ("out of range: " ++ ratToString minVal ++ " <= " ++
      ratToString checked ++ " <= " ++ ratToString maxVal ++ ", " ++ m))

/-! ### ScopeBenchmarker (ScopeBenchmarker.h) -/

/-- `PFL::StringHash` with `PFL::calcHash` comes from the external PFL
library; the spec assumes collision-free hashing and uses the hash only as
the lookup key of the store, so the key is modelled as the label itself. -/
abbrev StringHash := String

/-- `PFL::calcHash` (external PFL library), modelled as the identity under
the spec's collision-free-hashing assumption. -/
def calcHash (name : String) : StringHash := name

/-- `LLONG_MAX`, the default of `BmData::m_durationsMin`. -/
def LLONG_MAX : Int := 2 ^ 63 - 1

/-- `ScopeBenchmarkerDataStore::BmData` (ScopeBenchmarker.h:31-78). -/
structure BmData where
  m_name : String
  m_durationsTotal : Int
  m_durationsMin : Int
  m_durationsMax : Int
  m_iterations : Int
  m_ratioDenominator : Int
  deriving DecidableEq

/-- A default-constructed `BmData` (the member initializers at
ScopeBenchmarker.h:33-39). -/
def defaultBmData : BmData :=
  { m_name := "", m_durationsTotal := 0, m_durationsMin := LLONG_MAX,
    m_durationsMax := 0, m_iterations := 0, m_ratioDenominator := 0 }

/-- `BmData::getAverageDuration` (ScopeBenchmarker.h:64-69): `0` when
`m_iterations == 0`, otherwise the total divided by the iteration count
(C++ divides into a `float`; modelled as the exact rational quotient). -/
def BmData.getAverageDuration (bm : BmData) : ℚ :=
  if bm.m_iterations = 0 then 0
  else (bm.m_durationsTotal : ℚ) / (bm.m_iterations : ℚ)

/-- `BmData::reset` (ScopeBenchmarker.h:71-77). -/
def BmData.reset (bm : BmData) : BmData :=
  { bm with m_durationsTotal := 0, m_durationsMin := LLONG_MAX,
            m_durationsMax := 0, m_iterations := 0 }

/-- The global `std::map<PFL::StringHash, BmData>` of
`ScopeBenchmarkerDataStore::getAllData` (ScopeBenchmarker.h:83-89),
modelled as an association list threaded through the operations. -/
abbrev BmStore := List (StringHash × BmData)

/-- Key lookup in the store. -/
def storeFind (s : BmStore) (h : StringHash) : Option BmData :=
  match s with
  | [] => none
  | (k, v) :: rest => if k = h then some v else storeFind rest h

/-- Writing a record back through the reference obtained from
`operator[]`: replace the record under the key, inserting it when absent. -/
def storeWrite (s : BmStore) (h : StringHash) (v : BmData) : BmStore :=
  match s with
  | [] => [(h, v)]
  | (k, w) :: rest =>
    if k = h then (h, v) :: rest else (k, w) :: storeWrite rest h v

/-- `ScopeBenchmarkerDataStore::getDataByNameHash` (ScopeBenchmarker.h:96-99):
`getAllData()[hash]` — returns the stored record, creating a
default-valued entry first when the key is absent. -/
def getDataByNameHash (s : BmStore) (h : StringHash) : BmData × BmStore :=
  match storeFind s h with
  | some v => (v, s)
  | none => (defaultBmData, storeWrite s h defaultBmData)

/-- The `ScopeBenchmarker<DurationType>` constructor
(ScopeBenchmarker.h:153-177).  `den` is `DurationType::period::den`.  An
empty name throws before the store is touched; otherwise the label's record
is created/fetched, its iteration counter incremented (with the
post-increment overflow check of lines 164-168), and its name and ratio
denominator stored.  The captured start timestamp is real time and is
represented by the elapsed sample handed to the destructor instead. -/
def scopeBenchmarkerCtor (den : Int) (name : String) (s : BmStore) :
    Except String StringHash × BmStore :=
  if name = "" then
    (Except.error ("ScopeBenchmarker ctor: name cannot be empty!"), s)
  else
    let h := calcHash name
    let (bm, s1) := getDataByNameHash s h
    let bm1 := { bm with m_iterations := bm.m_iterations + 1 }
    let s2 := storeWrite s1 h bm1
    if bm1.m_iterations ≤ 0 then
      (Except.error ("ScopeBenchmarker ctor: m_iterations overflew!"), s2)
    else
      let bm2 := { bm1 with m_name := name, m_ratioDenominator := den }
      (Except.ok h, storeWrite s2 h bm2)

/-- The `ScopeBenchmarker` destructor (ScopeBenchmarker.h:179-202): add the
elapsed sample `d` to the label's running total and update the stored
min/max when the sample is smaller/larger (the non-throwing overflow
`assert` of line 186 has no effect on the state). -/
def scopeBenchmarkerDtor (h : StringHash) (d : Int) (s : BmStore) : BmStore :=
  let (bm, s1) := getDataByNameHash s h
  let bm1 := { bm with m_durationsTotal := bm.m_durationsTotal + d }
  let bm2 := if d < bm1.m_durationsMin then { bm1 with m_durationsMin := d } else bm1
  let bm3 := if d > bm2.m_durationsMax then { bm2 with m_durationsMax := d } else bm2
  storeWrite s1 h bm3

/-- A sequence of complete scoped-timer open/close cycles under one label,
with `ds` the elapsed samples the successive closures observe.  A failed
construction performs no closure. -/
def runCycles (den : Int) (name : String) (ds : List Int) (s : BmStore) :
    BmStore :=
  match ds with
  | [] => s
  | d :: rest =>
    let (r, s1) := scopeBenchmarkerCtor den name s
    match r with
    | Except.error _ => s1
    | Except.ok h => runCycles den name rest (scopeBenchmarkerDtor h d s1)

/-- The successful constructor's effect on the label's own record:
increment the iteration counter, store the name and the ratio denominator
(ScopeBenchmarker.h:163-175). -/
def ctorBm (den : Int) (nm : String) (bm : BmData) : BmData :=
  { bm with m_iterations := bm.m_iterations + 1,
            m_name := nm, m_ratioDenominator := den }

/-- The destructor's effect on the label's own record: add the elapsed
sample to the total and update min/max (ScopeBenchmarker.h:184-201). -/
def dtorBm (d : Int) (bm : BmData) : BmData :=
  let bm1 := { bm with m_durationsTotal := bm.m_durationsTotal + d }
  let bm2 := if d < bm1.m_durationsMin then { bm1 with m_durationsMin := d } else bm1
  if d > bm2.m_durationsMax then { bm2 with m_durationsMax := d } else bm2

/-- The combined effect of one complete open/close cycle on the label's own
record (constructor effect followed by destructor effect, in the successful
branch). -/
def cycleBm (den : Int) (nm : String) (d : Int) (bm : BmData) : BmData :=
  dtorBm d (ctorBm den nm bm)

/-! ### Specification helpers

Derived descriptions of what the loops above produce; each is proved equal
to the corresponding component of the source embedding below. -/

/-- The error messages the subtest loop appends, by recursion over the
remaining entries. -/
def subLoopErrors (fx : Fixture) : List SubTestEntry → Nat → List String
  | [], _ => []
  | e :: rest, i0 =>
    (if fx.setUpSub i0 then
       (if e.func then [] else ["  <" ++ e.name ++ "> failed!"])
     else ["  <" ++ e.name ++ "> SKIPPED due to setUp() failed!"])
      ++ subLoopErrors fx rest (i0 + 1)

/-- The number of subtests the loop counts as passed. -/
def subLoopPassCount (fx : Fixture) : List SubTestEntry → Nat → Int
  | [], _ => 0
  | e :: rest, i0 =>
    (if fx.setUpSub i0 && e.func then 1 else 0) + subLoopPassCount fx rest (i0 + 1)

/-- The hook-invocation trace the subtest loop produces. -/
def subLoopTrace (fx : Fixture) : List SubTestEntry → Nat → List Ev
  | [], _ => []
  | _ :: rest, i0 =>
    [Ev.preSetUpSub i0, Ev.setUpSub i0]
      ++ (if fx.setUpSub i0 then [Ev.subCall i0] else [])
      ++ [Ev.tearDownSub i0, Ev.postTearDownSub i0]
      ++ subLoopTrace fx rest (i0 + 1)

/-- The subtest indices whose `setUp()` invocation appears in a trace, in
trace order. -/
def setUpSubIndices (evs : List Ev) : List Nat :=
  evs.filterMap (fun ev => match ev with | Ev.setUpSub i => some i | _ => none)

/-- The aggregation invariant of a timing record: non-negative counters,
the default sentinel values while no closure has committed, and
`min·iterations ≤ total ≤ max·iterations` once one has. -/
def StatsOK (bm : BmData) : Prop :=
  0 ≤ bm.m_iterations ∧ 0 ≤ bm.m_durationsTotal ∧
  (bm.m_iterations = 0 →
    bm.m_durationsMin = LLONG_MAX ∧ bm.m_durationsMax = 0 ∧
    bm.m_durationsTotal = 0) ∧
  (0 < bm.m_iterations →
    bm.m_durationsMin * bm.m_iterations ≤ bm.m_durationsTotal ∧
    bm.m_durationsTotal ≤ bm.m_durationsMax * bm.m_iterations)

/-! ### Concrete inputs used in witness statements -/

/-- A fixture whose main `setUp()` fails. -/
def fxSetUpFail : Fixture :=
  { initAdds := [("s1", some true)], setUpMain := false,
    testMethodResult := true, setUpSub := fun _ => true }

/-- A fixture registering two subtests, with every hook succeeding. -/
def fxAllPass : Fixture :=
  { initAdds := [("s1", some true), ("s2", some true)], setUpMain := true,
    testMethodResult := true, setUpSub := fun _ => true }

/-- A fixture registering three subtests where the middle subtest's
`setUp()` fails and the last subtest's callable returns false. -/
def fxMixed : Fixture :=
  { initAdds := [("s1", some true), ("s2", some true), ("s3", some false)],
    setUpMain := true, testMethodResult := true,
    setUpSub := fun i => i ≠ 1 }

/-- A freshly constructed test case for file `F.cpp`. -/
def tF : TestState := mkTest "F.cpp" ""

/-- A state in which a subtest is registered and the current-subtest index
is valid (the precondition of `getCurrentSubTestName`). -/
def tC8 : TestState :=
  { initialTestState with
    tSubTests := [⟨true, "subA"⟩]
    bWeAreInSubTest := true }

/-! ## Lemmas about the Test lifecycle embedding -/

theorem runInitAdds_eq (l : List (String × Option Bool)) (t : TestState) :
    runInitAdds l t = { t with tSubTests := t.tSubTests ++ initEntries l } := by
  induction l generalizing t with
  | nil => simp [runInitAdds, initEntries]
  | cons p l ih =>
    rcases p with ⟨nm, f⟩
    cases f with
    | none =>
      have h1 : runInitAdds ((nm, none) :: l) t = runInitAdds l t := rfl
      rw [h1, ih]
      simp [initEntries]
    | some b =>
      have h1 : runInitAdds ((nm, some b) :: l) t
          = runInitAdds l { t with tSubTests := t.tSubTests ++ [⟨b, nm⟩] } := rfl
      rw [h1, ih]
      simp [initEntries]

theorem subLoop_snd (fx : Fixture) (entries : List SubTestEntry) :
    ∀ (i0 : Nat) (t : TestState),
      (subLoop fx entries i0 t).2 = subLoopTrace fx entries i0 := by
  induction entries with
  | nil => intro i0 t; rfl
  | cons e rest ih =>
    intro i0 t
    by_cases hs : fx.setUpSub i0
    · by_cases hf : e.func
      · simp [subLoop, subLoopTrace, hs, hf, ih]
      · simp [subLoop, subLoopTrace, hs, hf, ih]
    · simp [subLoop, subLoopTrace, hs, ih]

theorem subLoop_sErrorMessages (fx : Fixture) (entries : List SubTestEntry) :
    ∀ (i0 : Nat) (t : TestState),
      (subLoop fx entries i0 t).1.sErrorMessages
        = t.sErrorMessages ++ subLoopErrors fx entries i0 := by
  induction entries with
  | nil => intro i0 t; simp [subLoop, subLoopErrors]
  | cons e rest ih =>
    intro i0 t
    by_cases hs : fx.setUpSub i0
    · by_cases hf : e.func
      · simp [subLoop, subLoopErrors, hs, hf, ih]
      · simp [subLoop, subLoopErrors, hs, hf, ih, TestState.addToErrorMessages]
    · simp [subLoop, subLoopErrors, hs, ih, TestState.addToErrorMessages]

theorem subLoop_nSucceededSubTests (fx : Fixture) (entries : List SubTestEntry) :
    ∀ (i0 : Nat) (t : TestState),
      (subLoop fx entries i0 t).1.nSucceededSubTests
        = t.nSucceededSubTests + subLoopPassCount fx entries i0 := by
  induction entries with
  | nil => intro i0 t; simp [subLoop, subLoopPassCount]
  | cons e rest ih =>
    intro i0 t
    by_cases hs : fx.setUpSub i0
    · by_cases hf : e.func
      · simp [subLoop, subLoopPassCount, hs, hf, ih]
        ring
      · simp [subLoop, subLoopPassCount, hs, hf, ih, TestState.addToErrorMessages]
    · simp [subLoop, subLoopPassCount, hs, ih, TestState.addToErrorMessages]

theorem subLoop_tSubTests (fx : Fixture) (entries : List SubTestEntry) :
    ∀ (i0 : Nat) (t : TestState),
      (subLoop fx entries i0 t).1.tSubTests = t.tSubTests := by
  induction entries with
  | nil => intro i0 t; rfl
  | cons e rest ih =>
    intro i0 t
    by_cases hs : fx.setUpSub i0
    · by_cases hf : e.func
      · simp [subLoop, hs, hf, ih]
      · simp [subLoop, hs, hf, ih, TestState.addToErrorMessages]
    · simp [subLoop, hs, ih, TestState.addToErrorMessages]

theorem subLoop_bTestRan (fx : Fixture) (entries : List SubTestEntry) :
    ∀ (i0 : Nat) (t : TestState),
      (subLoop fx entries i0 t).1.bTestRan = t.bTestRan := by
  induction entries with
  | nil => intro i0 t; rfl
  | cons e rest ih =>
    intro i0 t
    by_cases hs : fx.setUpSub i0
    · by_cases hf : e.func
      · simp [subLoop, hs, hf, ih]
      · simp [subLoop, hs, hf, ih, TestState.addToErrorMessages]
    · simp [subLoop, hs, ih, TestState.addToErrorMessages]

theorem setUpSubIndices_subLoopTrace (fx : Fixture) (entries : List SubTestEntry) :
    ∀ i0 : Nat,
      setUpSubIndices (subLoopTrace fx entries i0)
        = List.range' i0 entries.length := by
  induction entries with
  | nil => intro i0; rfl
  | cons e rest ih =>
    intro i0
    by_cases hs : fx.setUpSub i0
    · simp [subLoopTrace, setUpSubIndices, hs, List.range'_succ]
      exact ih (i0 + 1)
    · simp [subLoopTrace, setUpSubIndices, hs, List.range'_succ]
      exact ih (i0 + 1)

theorem subCall_mem_subLoopTrace (fx : Fixture) (entries : List SubTestEntry) :
    ∀ (i0 i : Nat), Ev.subCall i ∈ subLoopTrace fx entries i0 →
      fx.setUpSub i = true := by
  induction entries with
  | nil => intro i0 i h; simp [subLoopTrace] at h
  | cons e rest ih =>
    intro i0 i h
    by_cases hs : fx.setUpSub i0
    · simp [subLoopTrace, hs] at h
      rcases h with h | h
      · subst h; exact hs
      · exact ih (i0 + 1) i h
    · simp [subLoopTrace, hs] at h
      exact ih (i0 + 1) i h

theorem subLoopErrors_skip (fx : Fixture) (entries : List SubTestEntry) :
    ∀ (i0 i : Nat), i < entries.length → fx.setUpSub (i0 + i) = false →
      ("  <" ++ (entries.getD i ⟨false, ""⟩).name
        ++ "> SKIPPED due to setUp() failed!") ∈ subLoopErrors fx entries i0 := by
  induction entries with
  | nil => intro i0 i h; simp at h
  | cons e rest ih =>
    intro i0 i hlen hs
    cases i with
    | zero =>
      simp at hs
      simp [subLoopErrors, hs]
    | succ j =>
      have hj : j < rest.length := by simpa using hlen
      have hs' : fx.setUpSub (i0 + 1 + j) = false := by
        have : i0 + 1 + j = i0 + (j + 1) := by omega
        rw [this]; exact hs
      have hmem := ih (i0 + 1) j hj hs'
      simp [subLoopErrors]
      right
      simpa using hmem

theorem subLoopErrors_fail (fx : Fixture) (entries : List SubTestEntry) :
    ∀ (i0 i : Nat), i < entries.length → fx.setUpSub (i0 + i) = true →
      (entries.getD i ⟨false, ""⟩).func = false →
      ("  <" ++ (entries.getD i ⟨false, ""⟩).name ++ "> failed!")
        ∈ subLoopErrors fx entries i0 := by
  induction entries with
  | nil => intro i0 i h; simp at h
  | cons e rest ih =>
    intro i0 i hlen hs hf
    cases i with
    | zero =>
      simp at hs
      simp at hf
      simp [subLoopErrors, hs, hf]
    | succ j =>
      have hj : j < rest.length := by simpa using hlen
      have hs' : fx.setUpSub (i0 + 1 + j) = true := by
        have : i0 + 1 + j = i0 + (j + 1) := by omega
        rw [this]; exact hs
      have hf' : (rest.getD j ⟨false, ""⟩).func = false := by simpa using hf
      have hmem := ih (i0 + 1) j hj hs' hf'
      simp [subLoopErrors]
      right
      simpa using hmem

theorem subLoopPassCount_filter (fx : Fixture) (entries : List SubTestEntry) :
    ∀ i0 : Nat,
      subLoopPassCount fx entries i0 =
        (((List.range entries.length).filter
            (fun j => fx.setUpSub (i0 + j)
              && (entries.getD j ⟨false, ""⟩).func)).length : Int) := by
  induction entries with
  | nil => intro i0; rfl
  | cons e rest ih =>
    intro i0
    have hstep : subLoopPassCount fx (e :: rest) i0
        = (if fx.setUpSub i0 && e.func then 1 else 0)
          + subLoopPassCount fx rest (i0 + 1) := rfl
    rw [hstep, ih (i0 + 1)]
    rw [show (e :: rest).length = rest.length + 1 from rfl,
        List.range_succ_eq_map, List.filter_cons, List.filter_map]
    have heq :
        (List.filter ((fun j => fx.setUpSub (i0 + j)
            && ((e :: rest).getD j ⟨false, ""⟩).func) ∘ Nat.succ)
          (List.range rest.length))
        = (List.filter (fun j => fx.setUpSub (i0 + 1 + j)
            && (rest.getD j ⟨false, ""⟩).func) (List.range rest.length)) := by
      apply List.filter_congr
      intro j _
      show (fx.setUpSub (i0 + (j + 1)) && ((e :: rest).getD (j + 1) ⟨false, ""⟩).func)
          = (fx.setUpSub (i0 + 1 + j) && (rest.getD j ⟨false, ""⟩).func)
      rw [show i0 + (j + 1) = i0 + 1 + j from by omega]
      rfl
    rw [heq]
    simp only [Nat.add_zero, List.getD_cons_zero]
    by_cases hc : (fx.setUpSub i0 && e.func) = true
    · simp only [hc, if_true, List.length_cons, List.length_map]
      omega
    · simp only [hc, if_false, List.length_map]
      simp at hc
      simp [hc]

theorem subLoopPassCount_all (fx : Fixture) (entries : List SubTestEntry) :
    ∀ i0 : Nat,
      (∀ j, j < entries.length → fx.setUpSub (i0 + j) = true) →
      (∀ e ∈ entries, e.func = true) →
      subLoopPassCount fx entries i0 = (entries.length : Int) := by
  induction entries with
  | nil => intro i0 _ _; rfl
  | cons e rest ih =>
    intro i0 hsu hfn
    have hs0 : fx.setUpSub i0 = true := by simpa using hsu 0 (by simp)
    have hf0 : e.func = true := hfn e (by simp)
    have hrest : ∀ j, j < rest.length → fx.setUpSub (i0 + 1 + j) = true := by
      intro j hj
      have : i0 + 1 + j = i0 + (j + 1) := by omega
      rw [this]
      exact hsu (j + 1) (by simpa using Nat.succ_lt_succ hj)
    have := ih (i0 + 1) hrest (fun x hx => hfn x (by simp [hx]))
    simp [subLoopPassCount, hs0, hf0, this]
    omega

theorem run_eq_of_setUpMain_false (fx : Fixture) (t : TestState)
    (h : fx.setUpMain = false) :
    run fx t =
      (false,
       { (t.reset) with
         bTestRan := true
         tSubTests := t.tSubTests ++ initEntries fx.initAdds
         sErrorMessages := ["  <" ++ t.sTestFile ++ "> setUp() failed!"] },
       [Ev.initHook, Ev.preSetUpMain, Ev.setUpMain, Ev.tearDownMain,
        Ev.postTearDownMain, Ev.finalizeHook]) := by
  simp [run, runBody, h, runInitAdds_eq, TestState.reset,
    TestState.addToErrorMessages, TestState.isPassed]

theorem run_trace_of_setUpMain_true (fx : Fixture) (t : TestState)
    (h : fx.setUpMain = true) :
    (run fx t).2.2
      = [Ev.initHook, Ev.preSetUpMain, Ev.setUpMain, Ev.testMethod,
         Ev.tearDownMain, Ev.postTearDownMain]
        ++ subLoopTrace fx (t.tSubTests ++ initEntries fx.initAdds) 0
        ++ [Ev.finalizeHook] := by
  by_cases htm : fx.testMethodResult
  · simp [run, runBody, h, htm, runInitAdds_eq, subLoop_snd, TestState.reset]
  · simp [run, runBody, h, htm, runInitAdds_eq, subLoop_snd, TestState.reset,
      TestState.addToErrorMessages]

theorem run_errors_suffix_of_setUpMain_true (fx : Fixture) (t : TestState)
    (h : fx.setUpMain = true) :
    ∀ m ∈ subLoopErrors fx (t.tSubTests ++ initEntries fx.initAdds) 0,
      m ∈ (run fx t).2.1.sErrorMessages := by
  intro m hm
  by_cases htm : fx.testMethodResult
  · simp [run, runBody, h, htm, runInitAdds_eq, subLoop_sErrorMessages,
      TestState.reset]
    exact hm
  · simp [run, runBody, h, htm, runInitAdds_eq, subLoop_sErrorMessages,
      TestState.reset, TestState.addToErrorMessages]
    right
    exact hm

theorem run_passCount_of_setUpMain_true (fx : Fixture) (t : TestState)
    (h : fx.setUpMain = true) :
    (run fx t).2.1.getPassedSubTestCount
      = subLoopPassCount fx (t.tSubTests ++ initEntries fx.initAdds) 0 := by
  by_cases htm : fx.testMethodResult
  · simp [run, runBody, h, htm, runInitAdds_eq, subLoop_nSucceededSubTests,
      TestState.reset, TestState.getPassedSubTestCount]
  · simp [run, runBody, h, htm, runInitAdds_eq, subLoop_nSucceededSubTests,
      TestState.reset, TestState.getPassedSubTestCount,
      TestState.addToErrorMessages]

theorem run_tSubTests (fx : Fixture) (t : TestState) :
    (run fx t).2.1.tSubTests = t.tSubTests ++ initEntries fx.initAdds := by
  by_cases h : fx.setUpMain
  · by_cases htm : fx.testMethodResult
    · simp [run, runBody, h, htm, runInitAdds_eq, subLoop_tSubTests,
        TestState.reset]
    · simp [run, runBody, h, htm, runInitAdds_eq, subLoop_tSubTests,
        TestState.reset, TestState.addToErrorMessages]
  · simp [run, runBody, h, runInitAdds_eq, TestState.reset,
      TestState.addToErrorMessages]

/-! ## Lemmas about the ScopeBenchmarker embedding -/

theorem ctor_singleton (den : Int) (nm : String) (bm : BmData)
    (hnm : nm ≠ "") (hiter : 0 ≤ bm.m_iterations) :
    scopeBenchmarkerCtor den nm [(nm, bm)]
      = (Except.ok nm, [(nm, ctorBm den nm bm)]) := by
  have hle : ¬(bm.m_iterations + 1 ≤ 0) := by omega
  simp [scopeBenchmarkerCtor, calcHash, getDataByNameHash, storeFind,
    storeWrite, hnm, hle, ctorBm]

theorem ctor_emptyStore (den : Int) (nm : String) (hnm : nm ≠ "") :
    scopeBenchmarkerCtor den nm []
      = (Except.ok nm, [(nm, ctorBm den nm defaultBmData)]) := by
  simp [scopeBenchmarkerCtor, calcHash, getDataByNameHash, storeFind,
    storeWrite, hnm, ctorBm, defaultBmData]

theorem dtor_singleton (nm : String) (d : Int) (bm : BmData) :
    scopeBenchmarkerDtor nm d [(nm, bm)] = [(nm, dtorBm d bm)] := by
  by_cases h1 : d < bm.m_durationsMin
  · by_cases h2 : d > bm.m_durationsMax
    · simp [scopeBenchmarkerDtor, getDataByNameHash, storeFind, storeWrite,
        dtorBm, h1, h2]
    · simp [scopeBenchmarkerDtor, getDataByNameHash, storeFind, storeWrite,
        dtorBm, h1, h2]
  · by_cases h2 : d > bm.m_durationsMax
    · simp [scopeBenchmarkerDtor, getDataByNameHash, storeFind, storeWrite,
        dtorBm, h1, h2]
    · simp [scopeBenchmarkerDtor, getDataByNameHash, storeFind, storeWrite,
        dtorBm, h1, h2]

theorem cycleBm_iterations (den : Int) (nm : String) (d : Int) (bm : BmData) :
    (cycleBm den nm d bm).m_iterations = bm.m_iterations + 1 := by
  by_cases h1 : d < bm.m_durationsMin
  · by_cases h2 : d > bm.m_durationsMax
    · simp [cycleBm, dtorBm, ctorBm, h1, h2]
    · simp [cycleBm, dtorBm, ctorBm, h1, h2]
  · by_cases h2 : d > bm.m_durationsMax
    · simp [cycleBm, dtorBm, ctorBm, h1, h2]
    · simp [cycleBm, dtorBm, ctorBm, h1, h2]

theorem runCycles_singleton (den : Int) (nm : String) (hnm : nm ≠ "") :
    ∀ (ds : List Int) (bm : BmData), 0 ≤ bm.m_iterations →
      runCycles den nm ds [(nm, bm)]
        = [(nm, ds.foldl (fun b d => cycleBm den nm d b) bm)] := by
  intro ds
  induction ds with
  | nil => intro bm _; rfl
  | cons d rest ih =>
    intro bm hb
    have hstep : runCycles den nm (d :: rest) [(nm, bm)]
        = runCycles den nm rest
            (scopeBenchmarkerDtor nm d [(nm, ctorBm den nm bm)]) := by
      rw [runCycles, ctor_singleton den nm bm hnm hb]
    rw [hstep, dtor_singleton]
    have hb' : 0 ≤ (cycleBm den nm d bm).m_iterations := by
      rw [cycleBm_iterations]; omega
    rw [show dtorBm d (ctorBm den nm bm) = cycleBm den nm d bm from rfl]
    rw [ih (cycleBm den nm d bm) hb']
    rfl

theorem runCycles_emptyStore (den : Int) (nm : String) (hnm : nm ≠ "")
    (d : Int) (rest : List Int) :
    runCycles den nm (d :: rest) []
      = [(nm, rest.foldl (fun b d => cycleBm den nm d b)
            (cycleBm den nm d defaultBmData))] := by
  have hstep : runCycles den nm (d :: rest) []
      = runCycles den nm rest
          (scopeBenchmarkerDtor nm d [(nm, ctorBm den nm defaultBmData)]) := by
    rw [runCycles, ctor_emptyStore den nm hnm]
  rw [hstep, dtor_singleton]
  rw [show dtorBm d (ctorBm den nm defaultBmData)
      = cycleBm den nm d defaultBmData from rfl]
  have hb' : 0 ≤ (cycleBm den nm d defaultBmData).m_iterations := by
    rw [cycleBm_iterations]; simp [defaultBmData]
  exact runCycles_singleton den nm hnm rest _ hb'

theorem statsOK_default : StatsOK defaultBmData := by
  refine ⟨le_refl 0, le_refl 0, fun _ => ⟨rfl, rfl, rfl⟩, fun h => absurd h (by simp [defaultBmData])⟩

theorem stats_step (n total minv maxv d : Int) (hn : 0 ≤ n) (_hd : 0 ≤ d)
    (hzero : n = 0 → minv = LLONG_MAX ∧ maxv = 0 ∧ total = 0)
    (hpos : 0 < n → minv * n ≤ total ∧ total ≤ maxv * n) :
    (min minv d) * (n + 1) ≤ total + d ∧ total + d ≤ (max maxv d) * (n + 1) := by
  rcases eq_or_lt_of_le hn with hz | hp
  · obtain ⟨hmn, hmx, ht0⟩ := hzero hz.symm
    constructor
    · have e1 : min minv d ≤ d := min_le_right _ _
      rw [← hz, ht0]
      linarith
    · have e1 : d ≤ max maxv d := le_max_right _ _
      rw [← hz, ht0]
      linarith
  · obtain ⟨hmm, hmx⟩ := hpos hp
    constructor
    · have e1 : min minv d * n ≤ minv * n :=
        mul_le_mul_of_nonneg_right (min_le_left _ _) hn
      have e2 : min minv d ≤ d := min_le_right _ _
      nlinarith
    · have e1 : maxv * n ≤ max maxv d * n :=
        mul_le_mul_of_nonneg_right (le_max_left _ _) hn
      have e2 : d ≤ max maxv d := le_max_right _ _
      nlinarith

theorem cycleBm_eq (den : Int) (nm : String) (d : Int) (bm : BmData) :
    cycleBm den nm d bm =
      { m_name := nm,
        m_durationsTotal := bm.m_durationsTotal + d,
        m_durationsMin := min bm.m_durationsMin d,
        m_durationsMax := max bm.m_durationsMax d,
        m_iterations := bm.m_iterations + 1,
        m_ratioDenominator := den } := by
  by_cases c1 : d < bm.m_durationsMin
  · by_cases c2 : d > bm.m_durationsMax
    · simp [cycleBm, dtorBm, ctorBm, c1, c2, min_eq_right (le_of_lt c1),
        max_eq_right (le_of_lt c2)]
    · simp [cycleBm, dtorBm, ctorBm, c1, c2, min_eq_right (le_of_lt c1),
        max_eq_left (not_lt.mp c2)]
  · by_cases c2 : d > bm.m_durationsMax
    · simp [cycleBm, dtorBm, ctorBm, c1, c2, min_eq_left (not_lt.mp c1),
        max_eq_right (le_of_lt c2)]
    · simp [cycleBm, dtorBm, ctorBm, c1, c2, min_eq_left (not_lt.mp c1),
        max_eq_left (not_lt.mp c2)]

theorem statsOK_cycle (den : Int) (nm : String) (d : Int) (bm : BmData)
    (hd : 0 ≤ d) (h : StatsOK bm) : StatsOK (cycleBm den nm d bm) := by
  obtain ⟨h1, h2, h3, h4⟩ := h
  have hstep := stats_step bm.m_iterations bm.m_durationsTotal
    bm.m_durationsMin bm.m_durationsMax d h1 hd h3 h4
  rw [cycleBm_eq]
  refine ⟨by simp; omega, by simp; omega, by intro hc; simp at hc; omega, ?_⟩
  intro _
  simpa using hstep

theorem statsOK_foldl (den : Int) (nm : String) :
    ∀ (ds : List Int) (bm : BmData), (∀ d ∈ ds, 0 ≤ d) → StatsOK bm →
      StatsOK (ds.foldl (fun b d => cycleBm den nm d b) bm) := by
  intro ds
  induction ds with
  | nil => intro bm _ h; exact h
  | cons d rest ih =>
    intro bm hds h
    have hd : 0 ≤ d := hds d (by simp)
    have hrest : ∀ x ∈ rest, 0 ≤ x := fun x hx => hds x (by simp [hx])
    exact ih (cycleBm den nm d bm) hrest (statsOK_cycle den nm d bm hd h)

theorem foldl_cycle_iterations (den : Int) (nm : String) :
    ∀ (ds : List Int) (bm : BmData),
      (ds.foldl (fun b d => cycleBm den nm d b) bm).m_iterations
        = bm.m_iterations + ds.length := by
  intro ds
  induction ds with
  | nil => intro bm; simp
  | cons d rest ih =>
    intro bm
    rw [List.foldl_cons, ih, cycleBm_iterations]
    simp [List.length_cons]
    omega

theorem setUpSubIndices_append (l1 l2 : List Ev) :
    setUpSubIndices (l1 ++ l2) = setUpSubIndices l1 ++ setUpSubIndices l2 := by
  simp [setUpSubIndices, List.filterMap_append]

/-! ## Claim theorems -/

/-- C1: `isPassed()` is true iff the case has run at least once since the
last reset and the error-message sequence is empty; immediately after a
`reset()` and on a freshly constructed case `isPassed()` is false. -/
theorem isPassed_iff_ran_and_no_errors (t : TestState) (f n : String) :
    (t.isPassed = true ↔ (t.bTestRan = true ∧ t.sErrorMessages = [])) ∧
    (t.reset).isPassed = false ∧
    (mkTest f n).isPassed = false := by
  refine ⟨?_, ?_, ?_⟩
  · simp [TestState.isPassed, List.isEmpty_iff]
  · simp [TestState.isPassed, TestState.reset]
  · by_cases hf : f.isEmpty <;> by_cases hg : n.isEmpty <;>
      simp [mkTest, hf, hg, TestState.isPassed, TestState.reset, initialTestState]

/-- C2: when the main `setUp()` returns false during `run()`, `testMethod()`
is never invoked, the `setUp() failed!` error message is appended,
`tearDown()` is still invoked exactly once for the main phase, the subtest
loop is skipped entirely (no subtest `setUp()` and no subtest callable runs),
and afterwards `isPassed()` is false, as is `run()`'s returned verdict. -/
theorem run_main_setUp_failure (fx : Fixture) (t : TestState)
    (h : fx.setUpMain = false) :
    Ev.testMethod ∉ (run fx t).2.2 ∧
    ("  <" ++ t.sTestFile ++ "> setUp() failed!") ∈ (run fx t).2.1.sErrorMessages ∧
    (run fx t).2.2.count Ev.tearDownMain = 1 ∧
    (∀ i : Nat, Ev.setUpSub i ∉ (run fx t).2.2 ∧ Ev.subCall i ∉ (run fx t).2.2) ∧
    (run fx t).2.1.isPassed = false ∧
    (run fx t).1 = false := by
  rw [run_eq_of_setUpMain_false fx t h]
  refine ⟨by simp, by simp, ?_, ?_, by simp [TestState.isPassed], rfl⟩
  · show List.count Ev.tearDownMain
        [Ev.initHook, Ev.preSetUpMain, Ev.setUpMain, Ev.tearDownMain,
         Ev.postTearDownMain, Ev.finalizeHook] = 1
    decide
  · intro i
    constructor <;> simp

/-- C2 witness: a concrete fixture whose main `setUp()` fails. -/
theorem run_main_setUp_failure_witness :
    fxSetUpFail.setUpMain = false ∧
    (Ev.testMethod ∉ (run fxSetUpFail tF).2.2 ∧
     ("  <" ++ tF.sTestFile ++ "> setUp() failed!")
        ∈ (run fxSetUpFail tF).2.1.sErrorMessages ∧
     (run fxSetUpFail tF).2.2.count Ev.tearDownMain = 1 ∧
     (∀ i : Nat, Ev.setUpSub i ∉ (run fxSetUpFail tF).2.2 ∧
        Ev.subCall i ∉ (run fxSetUpFail tF).2.2) ∧
     (run fxSetUpFail tF).2.1.isPassed = false ∧
     (run fxSetUpFail tF).1 = false) :=
  ⟨rfl, run_main_setUp_failure fxSetUpFail tF rfl⟩

/-- C4: `run()` resets all run state first, so its outcome (verdict, final
state and hook trace) depends only on the persistent fields — name, file
and registered subtests — and never on messages, counters or flags left by
an earlier run; additionally `reset()` clears exactly those run-state
fields. -/
theorem run_fresh_evaluation (fx : Fixture) (t1 t2 : TestState)
    (h1 : t1.sTestName = t2.sTestName) (h2 : t1.sTestFile = t2.sTestFile)
    (h3 : t1.tSubTests = t2.tSubTests) :
    ((t1.reset).sInfoMessages = [] ∧ (t1.reset).sErrorMessages = [] ∧
     (t1.reset).nSucceededSubTests = 0 ∧ (t1.reset).iCurrentSubTest = 0 ∧
     (t1.reset).bWeAreInSubTest = false ∧ (t1.reset).bTestRan = false) ∧
    run fx t1 = run fx t2 := by
  have hres : t1.reset = t2.reset := by
    cases t1
    cases t2
    simp only [TestState.reset]
    simp_all
  refine ⟨⟨rfl, rfl, rfl, rfl, rfl, rfl⟩, ?_⟩
  unfold run
  rw [hres]

/-- C4 witness: a dirty state (one previous failing run) versus a fresh
construction with the same name, file and subtest list. -/
theorem run_fresh_evaluation_witness :
    ((run fxSetUpFail tF).2.1.sTestName = tF.sTestName ∧
     (run fxSetUpFail tF).2.1.sTestFile = tF.sTestFile ∧
     (run fxSetUpFail tF).2.1.tSubTests = tF.tSubTests ++ initEntries fxSetUpFail.initAdds) ∧
    run fxSetUpFail (run fxSetUpFail tF).2.1
      = run fxSetUpFail { tF with tSubTests := tF.tSubTests ++ initEntries fxSetUpFail.initAdds } :=
  ⟨⟨by decide, by decide, by decide⟩,
    (run_fresh_evaluation fxSetUpFail (run fxSetUpFail tF).2.1
      { tF with tSubTests := tF.tSubTests ++ initEntries fxSetUpFail.initAdds }
      (by decide) (by decide) (by decide)).2⟩

/-- C10: `reset()` (and hence `run()`'s internal reset) leaves the
registered subtest list unchanged; a run appends exactly the entries its
`initialize()` registers, so the subtests registered by a previous run are
still present and a second run duplicates them. -/
theorem run_subtest_list_frame (fx : Fixture) (t : TestState) :
    (t.reset).tSubTests = t.tSubTests ∧
    (run fx t).2.1.tSubTests = t.tSubTests ++ initEntries fx.initAdds ∧
    (run fx ((run fx t).2.1)).2.1.tSubTests
      = (t.tSubTests ++ initEntries fx.initAdds) ++ initEntries fx.initAdds := by
  refine ⟨rfl, run_tSubTests fx t, ?_⟩
  rw [run_tSubTests fx ((run fx t).2.1), run_tSubTests fx t]

/-- C6: constructing a scoped timer with an empty label fails (the
constructor throws its invalid-argument error) and the aggregator store is
returned unchanged — no record is created. -/
theorem ctor_empty_label_rejected (den : Int) (s : BmStore) :
    scopeBenchmarkerCtor den "" s
      = (Except.error ("ScopeBenchmarker ctor: name cannot be empty!"), s) := by
  simp [scopeBenchmarkerCtor]

/-- C7: the float `assertBetween` with tolerance accepts a checked value
within epsilon outside a boundary: `assertBetween(1, 2, 2.05, 0.1)` returns
true and appends no error message, while `assertBetween(1, 2, 2.2, 0.1)`
returns false and appends one error message. -/
theorem assertBetween_eps_outward_inclusive (t : TestState) :
    (t.assertBetweenEps 1 2 (41/20) (1/10) none).1 = true ∧
    (t.assertBetweenEps 1 2 (41/20) (1/10) none).2.sErrorMessages = t.sErrorMessages ∧
    (t.assertBetweenEps 1 2 (11/5) (1/10) none).1 = false ∧
    (t.assertBetweenEps 1 2 (11/5) (1/10) none).2.sErrorMessages.length
      = t.sErrorMessages.length + 1 := by
  have p2 : (1:ℚ) < 41/20 := by norm_num
  have p1 : |(2:ℚ) - 41/20| ≤ 1/10 := by norm_num [abs_le]
  have q1 : ¬((2:ℚ) > 11/5) := by norm_num
  have q2 : ¬(|(2:ℚ) - 11/5| ≤ 1/10) := by norm_num [abs_le]
  have hb1 : ((decide ((1:ℚ) < 41/20) || decide (|(1:ℚ) - 41/20| ≤ 1/10)) &&
      (decide ((2:ℚ) > 41/20) || decide (|(2:ℚ) - 41/20| ≤ 1/10))) = true := by
    rw [decide_eq_true p2, decide_eq_true p1, Bool.true_or, Bool.or_true]
    rfl
  have hb2 : ((decide ((1:ℚ) < 11/5) || decide (|(1:ℚ) - 11/5| ≤ 1/10)) &&
      (decide ((2:ℚ) > 11/5) || decide (|(2:ℚ) - 11/5| ≤ 1/10))) = false := by
    rw [decide_eq_false q1, decide_eq_false q2, Bool.false_or, Bool.and_false]
  have e1 : t.assertBetweenEps 1 2 (41/20) (1/10) none = (true, t) := by
    simp only [TestState.assertBetweenEps, hb1]
    simp [TestState.assertTrue]
  have e2 : (t.assertBetweenEps 1 2 (11/5) (1/10) none).1 = false ∧
      (t.assertBetweenEps 1 2 (11/5) (1/10) none).2.sErrorMessages
        = t.sErrorMessages
          ++ ["Assertion failed: " ++ ("out of range: " ++ ratToString 1
              ++ " <= " ++ ratToString (11/5) ++ " <= " ++ ratToString 2 ++ " !")] := by
    simp only [TestState.assertBetweenEps, hb2]
    simp [TestState.assertTrue, TestState.addToErrorMessages]
  refine ⟨by rw [e1], by rw [e1], e2.1, ?_⟩
  rw [e2.2]
  simp

/-- C8: with a subtest registered and the current-subtest index valid (the
documented precondition), the source's `getCurrentSubTestName()` evaluates
`tSubTests[iCurrentSubTest].second` but discards it and returns nothing
(missing `return` statement), while its own documentation promises the
subtest's name. -/
theorem getCurrentSubTestName_returns_nothing :
    tC8.iCurrentSubTest < tC8.tSubTests.length ∧
    tC8.getCurrentSubTestName = none ∧
    tC8.getCurrentSubTestNameSpec = some "subA" := by
  refine ⟨by decide, rfl, rfl⟩

/-- C9: `getAverageDuration()` is total — on a record with iteration count
zero (freshly created or just reset) it returns 0 without dividing, and it
divides the total by the iteration count only when that count is
non-zero. -/
theorem getAverageDuration_total (bm : BmData) :
    (bm.reset).getAverageDuration = 0 ∧
    defaultBmData.getAverageDuration = 0 ∧
    (bm.m_iterations = 0 → bm.getAverageDuration = 0) ∧
    (bm.m_iterations ≠ 0 →
      bm.getAverageDuration = (bm.m_durationsTotal : ℚ) / (bm.m_iterations : ℚ)) := by
  refine ⟨?_, ?_, ?_, ?_⟩
  · simp [BmData.getAverageDuration, BmData.reset]
  · simp [BmData.getAverageDuration, defaultBmData]
  · intro h
    simp [BmData.getAverageDuration, h]
  · intro h
    simp [BmData.getAverageDuration, h]

/-- C9 witness: a record with zero iterations averages to 0; one with two
iterations and total 10 averages to 5. -/
theorem getAverageDuration_total_witness :
    (BmData.mk "x" 10 1 5 0 1).getAverageDuration = 0 ∧
    (BmData.mk "x" 10 1 5 2 1).getAverageDuration = 5 := by
  constructor
  · exact (getAverageDuration_total (BmData.mk "x" 10 1 5 0 1)).2.2.1 rfl
  · have h := (getAverageDuration_total (BmData.mk "x" 10 1 5 2 1)).2.2.2 (by decide)
    rw [h]
    norm_num

/-- C3: when the main `setUp()` succeeds, `run()` invokes the subtests'
`setUp()` hooks exactly once each, in registration order; a subtest whose
`setUp()` fails is skipped (its callable never runs) with the `SKIPPED`
message while the loop continues; a callable returning false contributes a
`failed!` message; the passed-subtest counter ends at the number of
subtests whose `setUp()` succeeded and whose callable returned true — in
particular `N` when all `N` succeed. -/
theorem run_subtest_iteration (fx : Fixture) (t : TestState)
    (h : fx.setUpMain = true) :
    setUpSubIndices (run fx t).2.2
      = List.range (t.tSubTests ++ initEntries fx.initAdds).length ∧
    (∀ i : Nat, fx.setUpSub i = false → Ev.subCall i ∉ (run fx t).2.2) ∧
    (∀ i : Nat, i < (t.tSubTests ++ initEntries fx.initAdds).length →
      fx.setUpSub i = false →
      ("  <" ++ ((t.tSubTests ++ initEntries fx.initAdds).getD i ⟨false, ""⟩).name
        ++ "> SKIPPED due to setUp() failed!") ∈ (run fx t).2.1.sErrorMessages) ∧
    (∀ i : Nat, i < (t.tSubTests ++ initEntries fx.initAdds).length →
      fx.setUpSub i = true →
      ((t.tSubTests ++ initEntries fx.initAdds).getD i ⟨false, ""⟩).func = false →
      ("  <" ++ ((t.tSubTests ++ initEntries fx.initAdds).getD i ⟨false, ""⟩).name
        ++ "> failed!") ∈ (run fx t).2.1.sErrorMessages) ∧
    ((run fx t).2.1.getPassedSubTestCount
      = (((List.range (t.tSubTests ++ initEntries fx.initAdds).length).filter
          (fun j => fx.setUpSub j
            && ((t.tSubTests ++ initEntries fx.initAdds).getD j ⟨false, ""⟩).func)).length : Int)) ∧
    ((∀ j, j < (t.tSubTests ++ initEntries fx.initAdds).length → fx.setUpSub j = true) →
     (∀ e ∈ t.tSubTests ++ initEntries fx.initAdds, e.func = true) →
     (run fx t).2.1.getPassedSubTestCount
        = ((t.tSubTests ++ initEntries fx.initAdds).length : Int)) := by
  refine ⟨?_, ?_, ?_, ?_, ?_, ?_⟩
  · rw [run_trace_of_setUpMain_true fx t h, setUpSubIndices_append,
      setUpSubIndices_append]
    have hmain : setUpSubIndices
        [Ev.initHook, Ev.preSetUpMain, Ev.setUpMain, Ev.testMethod,
         Ev.tearDownMain, Ev.postTearDownMain] = [] := rfl
    have hfin : setUpSubIndices [Ev.finalizeHook] = [] := rfl
    rw [hmain, hfin, setUpSubIndices_subLoopTrace]
    simp [List.range_eq_range']
  · intro i hi hmem
    rw [run_trace_of_setUpMain_true fx t h] at hmem
    simp [List.mem_append] at hmem
    exact absurd (subCall_mem_subLoopTrace fx _ 0 i hmem) (by simp [hi])
  · intro i hlen hsf
    apply run_errors_suffix_of_setUpMain_true fx t h
    have hsf' : fx.setUpSub (0 + i) = false := by simpa using hsf
    exact subLoopErrors_skip fx _ 0 i hlen hsf'
  · intro i hlen hst hff
    apply run_errors_suffix_of_setUpMain_true fx t h
    have hst' : fx.setUpSub (0 + i) = true := by simpa using hst
    exact subLoopErrors_fail fx _ 0 i hlen hst' hff
  · rw [run_passCount_of_setUpMain_true fx t h, subLoopPassCount_filter]
    simp
  · intro hsu hfn
    rw [run_passCount_of_setUpMain_true fx t h]
    exact subLoopPassCount_all fx _ 0 (fun j hj => by simpa using hsu j hj) hfn

/-- C3 witness: three registered subtests; the middle one's `setUp()`
fails, the last one's callable returns false — the loop visits all three in
order, skips the second, and counts exactly the first as passed. -/
theorem run_subtest_iteration_witness :
    fxMixed.setUpMain = true ∧
    setUpSubIndices (run fxMixed tF).2.2 = [0, 1, 2] ∧
    Ev.subCall 1 ∉ (run fxMixed tF).2.2 ∧
    ("  <s2> SKIPPED due to setUp() failed!") ∈ (run fxMixed tF).2.1.sErrorMessages ∧
    ("  <s3> failed!") ∈ (run fxMixed tF).2.1.sErrorMessages ∧
    (run fxMixed tF).2.1.getPassedSubTestCount = 1 := by
  have hmain := run_subtest_iteration fxMixed tF rfl
  refine ⟨rfl, ?_, ?_, ?_, ?_, ?_⟩
  · rw [hmain.1]
    decide
  · exact hmain.2.1 1 (by decide)
  · have hh := hmain.2.2.1 1 (by decide) (by decide)
    simpa using hh
  · have hh := hmain.2.2.2.1 2 (by decide) (by decide) (by decide)
    simpa using hh
  · have hh := hmain.2.2.2.2.1
    rw [hh]
    decide

/-- C5: a record produced from a fresh store purely by complete
scoped-timer open/close cycles with non-negative elapsed samples has a
positive iteration count and satisfies minimum ≤ average ≤ maximum, where
the average is the total divided by the iteration count. -/
theorem runCycles_min_avg_max (den : Int) (nm : String) (ds : List Int)
    (h1 : nm ≠ "") (h2 : ds ≠ []) (h3 : ∀ d ∈ ds, 0 ≤ d) (bm : BmData)
    (hbm : storeFind (runCycles den nm ds []) (calcHash nm) = some bm) :
    0 < bm.m_iterations ∧
    (bm.m_durationsMin : ℚ) ≤ bm.getAverageDuration ∧
    bm.getAverageDuration ≤ (bm.m_durationsMax : ℚ) := by
  obtain ⟨d, rest, rfl⟩ : ∃ d rest, ds = d :: rest := by
    cases ds with
    | nil => exact absurd rfl h2
    | cons d rest => exact ⟨d, rest, rfl⟩
  rw [runCycles_emptyStore den nm h1 d rest] at hbm
  simp [storeFind, calcHash] at hbm
  have hX : bm = (d :: rest).foldl (fun b p => cycleBm den nm p b) defaultBmData := by
    rw [List.foldl_cons]
    exact hbm.symm
  have hstats : StatsOK bm := by
    rw [hX]
    exact statsOK_foldl den nm (d :: rest) defaultBmData h3 statsOK_default
  have hiter : bm.m_iterations = ((d :: rest).length : Int) := by
    rw [hX, foldl_cycle_iterations]
    simp [defaultBmData]
  have hpos : 0 < bm.m_iterations := by
    rw [hiter]
    simp
  obtain ⟨_, _, _, hineq⟩ := hstats
  obtain ⟨hmin, hmax⟩ := hineq hpos
  have hne : bm.m_iterations ≠ 0 := by omega
  have havg : bm.getAverageDuration
      = (bm.m_durationsTotal : ℚ) / (bm.m_iterations : ℚ) := by
    simp [BmData.getAverageDuration, hne]
  have hposq : (0 : ℚ) < (bm.m_iterations : ℚ) := by exact_mod_cast hpos
  refine ⟨hpos, ?_, ?_⟩
  · rw [havg, le_div_iff₀ hposq]
    exact_mod_cast hmin
  · rw [havg, div_le_iff₀ hposq]
    exact_mod_cast hmax

/-- C5 witness: two cycles with samples 2 and 4 under label `lbl` yield the
record (total 6, min 2, max 4, iterations 2), whose average 3 lies between
min and max. -/
theorem runCycles_min_avg_max_witness :
    ("lbl" : String) ≠ "" ∧ ([2, 4] : List Int) ≠ [] ∧
    (∀ d ∈ ([2, 4] : List Int), 0 ≤ d) ∧
    storeFind (runCycles 1 "lbl" [2, 4] []) (calcHash "lbl")
      = some (BmData.mk "lbl" 6 2 4 2 1) ∧
    (0 < (BmData.mk "lbl" 6 2 4 2 1).m_iterations ∧
     ((BmData.mk "lbl" 6 2 4 2 1).m_durationsMin : ℚ)
        ≤ (BmData.mk "lbl" 6 2 4 2 1).getAverageDuration ∧
     (BmData.mk "lbl" 6 2 4 2 1).getAverageDuration
        ≤ ((BmData.mk "lbl" 6 2 4 2 1).m_durationsMax : ℚ)) :=
  ⟨by decide, by decide, by decide, by decide,
    runCycles_min_avg_max 1 "lbl" [2, 4] (by decide) (by decide) (by decide)
      (BmData.mk "lbl" 6 2 4 2 1) (by decide)⟩

end AssEssTest
